import Mathlib

/-!
Shallow embedding of `src/find_shortest_path.py` (repository
Gustacro/network_analysis) and proofs about it.

The script is a linear pipeline: geocode two addresses, build a bounding
box, fetch a road graph, snap the coordinates to graph nodes, compute a
length-optimized and a travel-time-optimized shortest path, print a
one-line summary, and save a folium map.

External library calls (OSMnx geocoding, graph download, nearest-node
search, and the Dijkstra-class shortest-path search) are modelled as
inputs of an `Env` record: the embedding fixes only what the script
itself computes from those results.  Python floats are modelled as exact
rationals; Python exceptions are modelled by `PyResult`.
-/

namespace NetworkAnalysis

/-- Result of a Python expression: a value, or a raised exception carrying
the exception's name/message. -/
inductive PyResult (α : Type) where
  | ok : α → PyResult α
  | exn : String → PyResult α
deriving DecidableEq

/-- One directed edge of the road network, with the two attributes the
script uses: `length` (meters) and, after `ox.add_edge_travel_times`,
`travel_time` (seconds). -/
structure Edge where
  src : Nat
  dst : Nat
  length : ℚ
  travel_time : ℚ
deriving DecidableEq

/-- The road network returned by `getting_osm`: a directed multigraph,
kept here as a node list and an edge list. -/
structure Graph where
  nodes : List Nat
  edges : List Edge
deriving DecidableEq

/-- First edge from `u` to `v`, if any. -/
def findEdge (G : Graph) (u v : Nat) : Option Edge :=
  G.edges.find? (fun e => e.src == u && e.dst == v)

/-- Every consecutive pair of the node list is joined by an edge of `G`. -/
def chainB (G : Graph) : List Nat → Bool
  | u :: v :: rest => (findEdge G u v).isSome && chainB G (v :: rest)
  | _ => true

/-- Sum of the weight `w` over the edges traversed by a route, exactly the
sum `ox.utils_graph.route_to_gdf(G, route, attr)[attr]` computes for a
valid route. -/
def routeCost (G : Graph) (w : Edge → ℚ) : List Nat → ℚ
  | u :: v :: rest =>
      (match findEdge G u v with
       | some e => w e
       | none => 0) + routeCost G w (v :: rest)
  | _ => 0

/-- A route `ox.utils_graph.route_to_gdf` accepts: at least two nodes and
every consecutive pair joined by an edge. -/
def routeOk (G : Graph) (r : List Nat) : Bool :=
  chainB G r && decide (2 ≤ r.length)

/-- All duplicate-free routes of `G` from `u` to `d` that avoid `visited`,
bounded by `fuel` (a Dijkstra-class search over nonnegative weights only
ever returns such routes). -/
def simplePathsAux (G : Graph) : Nat → List Nat → Nat → Nat → List (List Nat)
  | 0, _, _, _ => []
  | fuel + 1, visited, u, d =>
      if u = d then [[d]]
      else
        (G.edges.filter (fun e => e.src == u && !(visited.contains e.dst))).flatMap
          (fun e => (simplePathsAux G fuel (u :: visited) e.dst d).map (fun p => u :: p))

/-- All duplicate-free routes of `G` from `o` to `d`. -/
def simplePaths (G : Graph) (o d : Nat) : List (List Nat) :=
  simplePathsAux G (G.nodes.length + 1) [] o d

/-- Contract of `ox.shortest_path(G, o, d, weight=w)` when it succeeds: the
returned route is a route from `o` to `d` whose total weight under `w` is
minimal among all such routes. -/
def IsShortestRoute (G : Graph) (w : Edge → ℚ) (o d : Nat) (r : List Nat) : Prop :=
  r ∈ simplePaths G o d ∧ ∀ p ∈ simplePaths G o d, routeCost G w r ≤ routeCost G w p

instance (G : Graph) (w : Edge → ℚ) (o d : Nat) (r : List Nat) :
    Decidable (IsShortestRoute G w o d r) := by
  unfold IsShortestRoute
  infer_instance

/-- Rectangle as returned by shapely `bounds` / rebuilt by `box`. -/
structure BBox where
  minx : ℚ
  miny : ℚ
  maxx : ℚ
  maxy : ℚ
deriving DecidableEq

/-- Bounds of shapely `Point(x, y).buffer(r)`: the buffer polygon contains
the four axis-extreme points of the disc, so its bounds are exactly
`(x - r, y - r, x + r, y + r)`. -/
def bufferBounds (x y r : ℚ) : BBox :=
  { minx := x - r, miny := y - r, maxx := x + r, maxy := y + r }

/-- Bounds of a shapely union: the componentwise envelope of the bounds. -/
def unionBounds (a b : BBox) : BBox :=
  { minx := min a.minx b.minx, miny := min a.miny b.miny,
    maxx := max a.maxx b.maxx, maxy := max a.maxy b.maxy }

/-- `boundary_constructor` (src lines 32-37): the bounds of
`Point(orig_y, orig_x).buffer(0.001).union(Point(dest_y, dest_x).buffer(0.001))`,
rebuilt as a rectangle by `box`.  Note the script passes the shapely
x-coordinate first, i.e. `orig_y`.  Pure arithmetic: no I/O. -/
def boundary_constructor (orig_x orig_y dest_x dest_y : ℚ) : BBox :=
  unionBounds (bufferBounds orig_y orig_x (1/1000)) (bufferBounds dest_y dest_x (1/1000))

/-- Python truthiness of an optional float, as tested by
`all([orig_x, orig_y, dest_x, dest_y])` (src line 89): `None` and `0.0`
are falsy. -/
def truthy : Option ℚ → Bool
  | none => false
  | some x => decide (x ≠ 0)

/-- Python `int()` on a float: truncation toward zero. -/
def pyInt (q : ℚ) : ℤ :=
  if 0 ≤ q then ⌊q⌋ else ⌈q⌉

/-- Value displayed by Python's one-decimal float format for the
nonnegative values arising here: round to the nearest tenth (the concrete
values in this development are never at a tie, where binary-float
formatting could differ). -/
def round1 (q : ℚ) : ℚ :=
  ((⌊q * 10 + 1/2⌋ : ℤ) : ℚ) / 10

/-- Rendering of Python format `' .1f'` for a nonnegative value: a leading
sign space, the integer part, and one decimal digit. -/
def fmt1 (q : ℚ) : String :=
  let n : Nat := (⌊q * 10 + 1/2⌋).toNat
  " " ++ toString (n / 10) ++ "." ++ toString (n % 10)

/-- The miles figure of src line 106: `route_length * 0.000621`. -/
def milesValue (route_length : ℤ) : ℚ :=
  (route_length : ℚ) * (621/1000000)

/-- The minutes figure of src line 106: `route_time/60 + 0.5`. -/
def minutesValue (route_time : ℤ) : ℚ :=
  (route_time : ℚ) / 60 + 1/2

/-- The summary line printed at src line 106. -/
def summaryString (route_length route_time : ℤ) : String :=
  "Shortest travel length:" ++ fmt1 (milesValue route_length) ++
    " miles and takes " ++ fmt1 (minutesValue route_time) ++ " minutes"

/-- The one-decimal miles figure main reports for a route whose edge
lengths sum to `L` meters: src lines 64 and 106
(`int(sum(...))` then `* 0.000621` then `' .1f'`). -/
def reportedMiles (L : ℚ) : ℚ :=
  round1 (milesValue (pyInt L))

/-- Python `repr` of a list of ints, as an f-string interpolates it. -/
def pyReprList (l : List Nat) : String :=
  "[" ++ String.intercalate ", " (l.map (fun n => toString n)) ++ "]"

/-- Whether `pat` is a prefix of `l`. -/
def listEqTake : List Char → List Char → Bool
  | _, [] => true
  | [], _ :: _ => false
  | c :: cs, d :: ds => c == d && listEqTake cs ds

/-- Whether `pat` occurs as a contiguous sublist of `l`. -/
def hasSubList (pat : List Char) : List Char → Bool
  | [] => listEqTake [] pat
  | c :: cs => listEqTake (c :: cs) pat || hasSubList pat cs

/-- Whether `pat` occurs as a substring of `s`. -/
def strContains (s pat : String) : Bool :=
  hasSubList pat.toList s.toList

/-- `geocode` (src lines 23-30): on an exception from `ox.geocode` it
prints `Error: ...` and returns `(None, None)`; otherwise it returns the
coordinate pair. -/
def geocode : PyResult (ℚ × ℚ) → (Option ℚ × Option ℚ) × List String
  | .ok (x, y) => ((some x, some y), [])
  | .exn e => ((none, none), ["Error: " ++ e])

/-- `shortest_path` (src lines 53-60).  The `except nx.NetworkXNoPath`
handler prints two diagnostic lines and falls through to `return route`
with the local `route` never assigned, which raises `UnboundLocalError`;
any other exception propagates. -/
def shortest_path (orig_node_id dest_node_id : Nat) :
    PyResult (List Nat) → PyResult (List Nat) × List String
  | .ok route => (.ok route, [])
  | .exn e =>
      if e = "NetworkXNoPath" then
        (.exn "UnboundLocalError",
         ["No path found between " ++ toString orig_node_id ++ " and " ++
            toString dest_node_id, e])
      else (.exn e, [])

/-- `ox.utils_graph.route_to_gdf(G, r, attr)[attr]` summed: succeeds with
the attribute sum on a valid route, raises otherwise. -/
def route_to_gdf_sum (G : Graph) (r : List Nat) (w : Edge → ℚ) : PyResult ℚ :=
  if routeOk G r then .ok (routeCost G w r) else .exn "ValueError"

/-- `find_length_and_time` (src lines 62-68): sums `length` over the
length-route and `travel_time` over the time-route, truncating each with
`int()`.  If either summation raises, the handler prints `Error: ...` and
falls through to `return route_length, route_time` with those locals
unassigned, which raises `UnboundLocalError`. -/
def find_length_and_time (G : Graph) (travel_length travel_time : List Nat) :
    PyResult (ℤ × ℤ) × List String :=
  match route_to_gdf_sum G travel_length Edge.length with
  | .exn e => (.exn "UnboundLocalError", ["Error: " ++ e])
  | .ok slen =>
      match route_to_gdf_sum G travel_time Edge.travel_time with
      | .exn e => (.exn "UnboundLocalError", ["Error: " ++ e])
      | .ok stime => (.ok (pyInt slen, pyInt stime), [])

/-- Python truthiness of a list (`if travel_length or travel_time`,
src line 72). -/
def pyTruthyList (r : List Nat) : Bool :=
  !r.isEmpty

/-- The folium map document built by `route_plotting`: the drawn route,
the two markers with their popups, and the free-standing popup texts. -/
structure MapDoc where
  routeDrawn : List Nat
  markers : List ((ℚ × ℚ) × String)
  popups : List String
deriving DecidableEq

/-- `route_plotting` (src lines 70-78): when at least one route is truthy
it draws the length-route, adds `Start` and `End` markers, and adds a
popup whose f-string interpolates the two route lists themselves
(labelled minutes and meters).  When both routes are falsy the guard is
skipped and `return m` raises `UnboundLocalError`. -/
def route_plotting (origin_loc destination_loc : ℚ × ℚ)
    (travel_length travel_time : List Nat) : PyResult MapDoc :=
  if pyTruthyList travel_length || pyTruthyList travel_time then
    .ok { routeDrawn := travel_length,
          markers := [(origin_loc, "Start"), (destination_loc, "End")],
          popups := ["Travel Time: " ++ pyReprList travel_time ++
                       " minutes, Travel Length: " ++ pyReprList travel_length ++
                       " meters"] }
  else .exn "UnboundLocalError"

/-- Results of the external library calls made during one run: the two
`ox.geocode` calls, the graph `ox.graph_from_polygon` returns (already
augmented with speeds and travel times), the two snapped node ids, and
the two `ox.shortest_path` results. -/
structure Env where
  geo1 : PyResult (ℚ × ℚ)
  geo2 : PyResult (ℚ × ℚ)
  graph : Graph
  nearestOrig : Nat
  nearestDest : Nat
  pathResL : PyResult (List Nat)
  pathResT : PyResult (List Nat)

/-- Observable outcome of one run of `main`. -/
structure RunResult where
  printed : List String := []
  networkFetched : Bool := false
  fileWritten : Bool := false
  exited : Bool := false
  exitStatus : Nat := 0
  crashed : Option String := none
  summaryLine : Option String := none
  mapDoc : Option MapDoc := none
deriving DecidableEq

/-- The abort taken at src lines 89-91: print the message and call
`sys.exit()` — which exits with status 0, before any network fetch or
file write. -/
def abortResult (pr : List String) : RunResult :=
  { printed := pr ++ ["Unable to geocode one or both addresses. Exiting..."],
    exited := true, exitStatus := 0 }

/-- An uncaught exception after the network fetch: traceback, exit
status 1, no file written. -/
def crashResult (pr : List String) (e : String) : RunResult :=
  { printed := pr, crashed := some e, exitStatus := 1, networkFetched := true }

/-- `main` from the network fetch onward (src lines 96-112): snap nodes,
run both shortest-path computations, summarize, print the summary line,
plot, and save `shortest_path_map.html`. -/
def mainAfterFetch (env : Env) (origin_loc destination_loc : ℚ × ℚ)
    (pr : List String) : RunResult :=
  let G := env.graph
  let resL := shortest_path env.nearestOrig env.nearestDest env.pathResL
  match resL.1 with
  | .exn e => crashResult (pr ++ resL.2) e
  | .ok travel_length =>
      let resT := shortest_path env.nearestOrig env.nearestDest env.pathResT
      match resT.1 with
      | .exn e => crashResult (pr ++ resL.2 ++ resT.2) e
      | .ok travel_time =>
          let resF := find_length_and_time G travel_length travel_time
          match resF.1 with
          | .exn e => crashResult (pr ++ resL.2 ++ resT.2 ++ resF.2) e
          | .ok (route_length, route_time) =>
              let summary := summaryString route_length route_time
              match route_plotting origin_loc destination_loc travel_length travel_time with
              | .exn e => crashResult (pr ++ resL.2 ++ resT.2 ++ resF.2 ++ [summary]) e
              | .ok m =>
                  { printed := pr ++ resL.2 ++ resT.2 ++ resF.2 ++ [summary, "Done"],
                    networkFetched := true, fileWritten := true,
                    summaryLine := some summary, mapDoc := some m }

/-- `main` (src lines 81-112).  Geocode both addresses; if any of the four
returned components is falsy (`None` or `0.0`) print the message and
`sys.exit()`; otherwise build the bounding box, fetch the network, and
continue. -/
def main (env : Env) : RunResult :=
  let gor := geocode env.geo1
  let gde := geocode env.geo2
  let pr := gor.2 ++ gde.2
  if truthy gor.1.1 && truthy gor.1.2 && truthy gde.1.1 && truthy gde.1.2 then
    let orig_x := gor.1.1.getD 0
    let orig_y := gor.1.2.getD 0
    let dest_x := gde.1.1.getD 0
    let dest_y := gde.1.2.getD 0
    let _bbox := boundary_constructor orig_x orig_y dest_x dest_y
    mainAfterFetch env (orig_x, orig_y) (dest_x, dest_y) pr
  else
    abortResult pr

/-- A two-node network with one 100 m, 90 s edge. -/
def G1 : Graph :=
  { nodes := [1, 2], edges := [{ src := 1, dst := 2, length := 100, travel_time := 90 }] }

/-- A fully successful run over `G1`: both geocodes succeed with nonzero
coordinates and both shortest-path calls return the single edge route. -/
def envC1 : Env :=
  { geo1 := .ok (1, 1), geo2 := .ok (2, 2), graph := G1,
    nearestOrig := 1, nearestDest := 2,
    pathResL := .ok [1, 2], pathResT := .ok [1, 2] }

/-- A run in which the length-weighted shortest-path call finds no path. -/
def envNP : Env :=
  { geo1 := .ok (1, 1), geo2 := .ok (2, 2), graph := G1,
    nearestOrig := 1, nearestDest := 2,
    pathResL := .exn "NetworkXNoPath", pathResT := .exn "NetworkXNoPath" }

/-- A run in which the first geocode raises. -/
def envBad : Env :=
  { geo1 := .exn "no match", geo2 := .ok (1, 1), graph := G1,
    nearestOrig := 1, nearestDest := 2,
    pathResL := .ok [1, 2], pathResT := .ok [1, 2] }

/-- A run in which both addresses geocode but one component is exactly 0. -/
def envZero : Env :=
  { geo1 := .ok (0, 5), geo2 := .ok (1, 1), graph := G1,
    nearestOrig := 1, nearestDest := 2,
    pathResL := .ok [1, 2], pathResT := .ok [1, 2] }

/-- A three-node network on which the length-optimized and time-optimized
routes differ: the direct edge is fast but long, the two-edge detour is
short but slow. -/
def G8 : Graph :=
  { nodes := [0, 1, 2],
    edges := [{ src := 0, dst := 1, length := 10, travel_time := 1 },
              { src := 0, dst := 2, length := 3, travel_time := 5 },
              { src := 2, dst := 1, length := 3, travel_time := 5 }] }

/-- A fully successful run over `G8` whose two routes differ. -/
def envC10 : Env :=
  { geo1 := .ok (1, 1), geo2 := .ok (2, 2), graph := G8,
    nearestOrig := 0, nearestDest := 1,
    pathResL := .ok [0, 2, 1], pathResT := .ok [0, 1] }

/-- Rounding to the nearest integer moves a rational by at most 1/2. -/
theorem floor_round_abs (y : ℚ) : |((⌊y + 1/2⌋ : ℤ) : ℚ) - y| ≤ 1/2 := by
  have h1 := Int.floor_le (y + 1/2)
  have h2 := Int.lt_floor_add_one (y + 1/2)
  rw [abs_le]
  constructor <;> linarith

/-- A route accepted by `route_to_gdf` is nonempty. -/
theorem routeOk_not_empty (G : Graph) (r : List Nat) (h : routeOk G r = true) :
    r.isEmpty = false := by
  cases r with
  | nil => simp [routeOk] at h
  | cons a l => simp

/-- Symbolic execution of a fully successful run: nonzero geocodes, both
shortest-path calls return valid routes.  The summary line and the map
document are determined as shown. -/
theorem main_success (env : Env) (x1 y1 x2 y2 : ℚ) (rL rT : List Nat)
    (h1 : env.geo1 = .ok (x1, y1)) (h2 : env.geo2 = .ok (x2, y2))
    (hx1 : x1 ≠ 0) (hy1 : y1 ≠ 0) (hx2 : x2 ≠ 0) (hy2 : y2 ≠ 0)
    (hL : env.pathResL = .ok rL) (hT : env.pathResT = .ok rT)
    (hvL : routeOk env.graph rL = true) (hvT : routeOk env.graph rT = true) :
    main env =
      { printed := [summaryString (pyInt (routeCost env.graph Edge.length rL))
                      (pyInt (routeCost env.graph Edge.travel_time rT)), "Done"],
        networkFetched := true, fileWritten := true,
        summaryLine := some (summaryString (pyInt (routeCost env.graph Edge.length rL))
                      (pyInt (routeCost env.graph Edge.travel_time rT))),
        mapDoc := some { routeDrawn := rL,
                         markers := [((x1, y1), "Start"), ((x2, y2), "End")],
                         popups := ["Travel Time: " ++ pyReprList rT ++
                                      " minutes, Travel Length: " ++ pyReprList rL ++
                                      " meters"] } } := by
  have hneL : rL.isEmpty = false := routeOk_not_empty env.graph rL hvL
  have hcond : (truthy (some x1) && truthy (some y1) &&
      truthy (some x2) && truthy (some y2)) = true := by
    simp [truthy, hx1, hy1, hx2, hy2]
  unfold main
  rw [h1, h2]
  simp only [geocode, hcond, Option.getD_some, if_true, List.nil_append, List.append_nil]
  unfold mainAfterFetch
  rw [hL, hT]
  simp only [shortest_path, find_length_and_time, route_to_gdf_sum, hvL, if_true,
    hvT, route_plotting, pyTruthyList, hneL, Bool.not_false, Bool.true_or,
    List.nil_append, List.append_nil]

/-- Evaluation form of `Int.floor` on rationals. -/
theorem floor_eq_of (q : ℚ) (n : ℤ) (h1 : (n : ℚ) ≤ q) (h2 : q < n + 1) : ⌊q⌋ = n :=
  Int.floor_eq_iff.mpr ⟨h1, h2⟩

/-- On `G8` the route through node 2 is the length-optimized route. -/
theorem shortest_G8_length : IsShortestRoute G8 Edge.length 0 1 [0, 2, 1] := by
  have hsp : simplePaths G8 0 1 = [[0, 1], [0, 2, 1]] := by decide
  have h6 : routeCost G8 Edge.length [0, 2, 1] = 6 := by
    simp [routeCost, findEdge, G8]
    norm_num
  have h10 : routeCost G8 Edge.length [0, 1] = 10 := by
    simp [routeCost, findEdge, G8]
  constructor
  · rw [hsp]
    simp
  · intro p hp
    rw [hsp] at hp
    rcases List.mem_cons.mp hp with rfl | hp
    · rw [h6, h10]
      norm_num
    · rcases List.mem_cons.mp hp with rfl | hp
      · exact le_refl _
      · exact absurd hp (List.not_mem_nil p)

/-- On `G8` the direct edge is the travel-time-optimized route. -/
theorem shortest_G8_time : IsShortestRoute G8 Edge.travel_time 0 1 [0, 1] := by
  have hsp : simplePaths G8 0 1 = [[0, 1], [0, 2, 1]] := by decide
  have h1 : routeCost G8 Edge.travel_time [0, 1] = 1 := by
    simp [routeCost, findEdge, G8]
  have h10 : routeCost G8 Edge.travel_time [0, 2, 1] = 10 := by
    simp [routeCost, findEdge, G8]
    norm_num
  constructor
  · rw [hsp]
    simp
  · intro p hp
    rw [hsp] at hp
    rcases List.mem_cons.mp hp with rfl | hp
    · exact le_refl _
    · rcases List.mem_cons.mp hp with rfl | hp
      · rw [h1, h10]
        norm_num
      · exact absurd hp (List.not_mem_nil p)

/-- Claim C1: the spec states the reported travel time in minutes is the
route's travel time in seconds divided by 60, rounded half-up to one
decimal, with 90 seconds reported as 1.5 minutes.  The code (src line
106) instead formats `route_time/60 + 0.5`, so a run over a route with a
single 90 s edge prints 2.0 minutes — spec section 9 itself identifies
`seconds / 60` as the intended conversion, so this is a code bug. -/
theorem minutes_figure_at_90_seconds :
    (main envC1).summaryLine =
      some "Shortest travel length: 0.1 miles and takes  2.0 minutes" ∧
      round1 (minutesValue 90) = 2 ∧ ¬ round1 (minutesValue 90) = 3/2 := by
  have hcL : routeCost envC1.graph Edge.length [1, 2] = 100 := by
    simp [routeCost, findEdge, envC1, G1]
  have hcT : routeCost envC1.graph Edge.travel_time [1, 2] = 90 := by
    simp [routeCost, findEdge, envC1, G1]
  have hpyL : pyInt (100 : ℚ) = 100 := by
    rw [pyInt, if_pos (by norm_num)]
    exact floor_eq_of _ 100 (by norm_num) (by norm_num)
  have hpyT : pyInt (90 : ℚ) = 90 := by
    rw [pyInt, if_pos (by norm_num)]
    exact floor_eq_of _ 90 (by norm_num) (by norm_num)
  have h20 : (⌊minutesValue 90 * 10 + 1/2⌋ : ℤ) = 20 :=
    floor_eq_of _ 20 (by norm_num [minutesValue]) (by norm_num [minutesValue])
  have hsum : summaryString 100 90 =
      "Shortest travel length: 0.1 miles and takes  2.0 minutes" := by
    have h1 : (⌊milesValue 100 * 10 + 1/2⌋ : ℤ) = 1 :=
      floor_eq_of _ 1 (by norm_num [milesValue]) (by norm_num [milesValue])
    simp only [summaryString, fmt1, h1, h20]
    rfl
  have hrun := main_success envC1 1 1 2 2 [1, 2] [1, 2] rfl rfl (by decide) (by decide)
    (by decide) (by decide) rfl rfl (by decide) (by decide)
  refine ⟨?_, ?_, ?_⟩
  · rw [hrun]
    simp only [hcL, hcT, hpyL, hpyT, hsum]
  · rw [round1, h20]
    norm_num
  · rw [round1, h20]
    norm_num

/-- Claim C2: the spec states that on a no-path failure each weight
variant prints a diagnostic, the other variant is still attempted, and
downstream stages handle absent routes without crashing.  The `except`
handler at src lines 57-59 does print the diagnostic, but then reaches
`return route` with the local `route` never assigned, so the process
crashes with `UnboundLocalError`: the second variant is never attempted
and nothing downstream runs.  The handler's printed recovery shows the
claim is the code's intent, so this is a code bug. -/
theorem no_path_unbound_local_crash :
    shortest_path 1 2 (.exn "NetworkXNoPath") =
      (.exn "UnboundLocalError",
        ["No path found between 1 and 2", "NetworkXNoPath"]) ∧
      (main envNP).crashed = some "UnboundLocalError" ∧
      (main envNP).printed = ["No path found between 1 and 2", "NetworkXNoPath"] ∧
      (main envNP).fileWritten = false := by
  refine ⟨by decide, by decide, by decide, by decide⟩

/-- Claim C3: when geocoding returns an absent result for either address,
the guard at src line 89 takes the abort branch, so no network
acquisition happens, no output file is written, and the process exits at
src line 91. -/
theorem geocode_absent_blocks_pipeline (env : Env)
    (h : (∃ e, env.geo1 = PyResult.exn e) ∨ (∃ e, env.geo2 = PyResult.exn e)) :
    (main env).networkFetched = false ∧ (main env).fileWritten = false ∧
      (main env).exited = true := by
  rcases h with ⟨e, he⟩ | ⟨e, he⟩
  · unfold main
    rw [he]
    simp [geocode, truthy, abortResult]
  · cases hg : env.geo1 with
    | ok p =>
        obtain ⟨a, b⟩ := p
        unfold main
        rw [hg, he]
        simp [geocode, truthy, abortResult]
    | exn e1 =>
        unfold main
        rw [hg, he]
        simp [geocode, truthy, abortResult]

/-- Claim C3 witness: the run whose first geocode raises neither fetches
the network nor writes the file. -/
theorem geocode_absent_blocks_pipeline_witness :
    (main envBad).networkFetched = false ∧ (main envBad).fileWritten = false ∧
      (main envBad).exited = true :=
  geocode_absent_blocks_pipeline envBad (Or.inl ⟨"no match", rfl⟩)

/-- Claim C4 counterexample: the claim says the process exits with a
non-zero/error status after a failed geocode, but `sys.exit()` at src
line 91 is called with no argument, which exits with status 0. -/
theorem geocode_failure_exit_code_zero :
    (main envBad).exited = true ∧ (main envBad).exitStatus = 0 ∧
      ¬ (main envBad).exitStatus ≠ 0 := by
  refine ⟨by decide, by decide, by decide⟩

/-- Claim C4 as amended: when either address fails to geocode the process
prints the user-facing message and exits early — but with exit status 0,
not a non-zero status — and no output file is written. -/
theorem geocode_failure_aborts_with_status_zero (env : Env)
    (h : (∃ e, env.geo1 = PyResult.exn e) ∨ (∃ e, env.geo2 = PyResult.exn e)) :
    (main env).exited = true ∧ (main env).exitStatus = 0 ∧
      "Unable to geocode one or both addresses. Exiting..." ∈ (main env).printed ∧
      (main env).fileWritten = false := by
  rcases h with ⟨e, he⟩ | ⟨e, he⟩
  · unfold main
    rw [he]
    simp [geocode, truthy, abortResult]
  · cases hg : env.geo1 with
    | ok p =>
        obtain ⟨a, b⟩ := p
        unfold main
        rw [hg, he]
        simp [geocode, truthy, abortResult]
    | exn e1 =>
        unfold main
        rw [hg, he]
        simp [geocode, truthy, abortResult]

/-- Claim C4 witness: the failed-geocode run prints the message and exits
with status 0. -/
theorem geocode_failure_aborts_with_status_zero_witness :
    (main envBad).exited = true ∧ (main envBad).exitStatus = 0 ∧
      "Unable to geocode one or both addresses. Exiting..." ∈ (main envBad).printed ∧
      (main envBad).fileWritten = false :=
  geocode_failure_aborts_with_status_zero envBad (Or.inl ⟨"no match", rfl⟩)

/-- Claim C5 counterexample: the claim says the summary popup states the
travel length converted to miles and the travel time converted to
minutes.  On a successful run the popup built at src line 77
interpolates the two route node lists themselves, labels the length
`meters`, and never mentions miles. -/
theorem map_popup_lacks_miles :
    (main envC1).mapDoc =
      some { routeDrawn := [1, 2],
             markers := [((1, 1), "Start"), ((2, 2), "End")],
             popups := ["Travel Time: [1, 2] minutes, Travel Length: [1, 2] meters"] } ∧
      strContains "Travel Time: [1, 2] minutes, Travel Length: [1, 2] meters"
        "miles" = false ∧
      strContains "Travel Time: [1, 2] minutes, Travel Length: [1, 2] meters"
        "meters" = true := by
  refine ⟨by decide, by decide, by decide⟩

/-- Claim C5 as amended: every successful run's map document carries the
two markers with popups `Start` and `End`, and a popup whose text
interpolates the route node sequences labelled `minutes` and `meters`
(the routes, not the converted totals; the length is labelled meters, not
miles). -/
theorem map_markers_and_popup_contents (env : Env) (x1 y1 x2 y2 : ℚ)
    (rL rT : List Nat)
    (h1 : env.geo1 = .ok (x1, y1)) (h2 : env.geo2 = .ok (x2, y2))
    (hx1 : x1 ≠ 0) (hy1 : y1 ≠ 0) (hx2 : x2 ≠ 0) (hy2 : y2 ≠ 0)
    (hL : env.pathResL = .ok rL) (hT : env.pathResT = .ok rT)
    (hvL : routeOk env.graph rL = true) (hvT : routeOk env.graph rT = true) :
    (main env).mapDoc =
      some { routeDrawn := rL,
             markers := [((x1, y1), "Start"), ((x2, y2), "End")],
             popups := ["Travel Time: " ++ pyReprList rT ++
                          " minutes, Travel Length: " ++ pyReprList rL ++
                          " meters"] } := by
  rw [main_success env x1 y1 x2 y2 rL rT h1 h2 hx1 hy1 hx2 hy2 hL hT hvL hvT]

/-- Claim C5 amended witness: concrete successful run over `G8`. -/
theorem map_markers_and_popup_contents_witness :
    (main envC10).mapDoc =
      some { routeDrawn := [0, 2, 1],
             markers := [((1, 1), "Start"), ((2, 2), "End")],
             popups := ["Travel Time: " ++ pyReprList [0, 1] ++
                          " minutes, Travel Length: " ++ pyReprList [0, 2, 1] ++
                          " meters"] } :=
  map_markers_and_popup_contents envC10 1 1 2 2 [0, 2, 1] [0, 1] rfl rfl
    (by decide) (by decide) (by decide) (by decide) rfl rfl (by decide) (by decide)

/-- Claim C6: `boundary_constructor` is pure arithmetic (it always
succeeds, no I/O) and its rectangle contains both coordinates — origin
`(orig_y, orig_x)` and destination `(dest_y, dest_x)` in shapely's
x-first order — with a margin of at least the 1/1000-degree buffer on
every side. -/
theorem boundary_contains_both_with_margin (orig_x orig_y dest_x dest_y : ℚ) :
    ((boundary_constructor orig_x orig_y dest_x dest_y).minx + 1/1000 ≤ orig_y ∧
      orig_y + 1/1000 ≤ (boundary_constructor orig_x orig_y dest_x dest_y).maxx ∧
      (boundary_constructor orig_x orig_y dest_x dest_y).miny + 1/1000 ≤ orig_x ∧
      orig_x + 1/1000 ≤ (boundary_constructor orig_x orig_y dest_x dest_y).maxy) ∧
    ((boundary_constructor orig_x orig_y dest_x dest_y).minx + 1/1000 ≤ dest_y ∧
      dest_y + 1/1000 ≤ (boundary_constructor orig_x orig_y dest_x dest_y).maxx ∧
      (boundary_constructor orig_x orig_y dest_x dest_y).miny + 1/1000 ≤ dest_x ∧
      dest_x + 1/1000 ≤ (boundary_constructor orig_x orig_y dest_x dest_y).maxy) := by
  simp only [boundary_constructor, unionBounds, bufferBounds]
  refine ⟨⟨?_, ?_, ?_, ?_⟩, ?_, ?_, ?_, ?_⟩
  · have h := min_le_left (orig_y - 1/1000) (dest_y - 1/1000); linarith
  · have h := le_max_left (orig_y + 1/1000) (dest_y + 1/1000); linarith
  · have h := min_le_left (orig_x - 1/1000) (dest_x - 1/1000); linarith
  · have h := le_max_left (orig_x + 1/1000) (dest_x + 1/1000); linarith
  · have h := min_le_right (orig_y - 1/1000) (dest_y - 1/1000); linarith
  · have h := le_max_right (orig_y + 1/1000) (dest_y + 1/1000); linarith
  · have h := min_le_right (orig_x - 1/1000) (dest_x - 1/1000); linarith
  · have h := le_max_right (orig_x + 1/1000) (dest_x + 1/1000); linarith

/-- Claim C7 counterexample: the claim says the reported distance equals
the route's total length converted to miles (within one-decimal rounding
tolerance) for every successful run, but the code's truncated constant
`0.000621` (src line 106) understates the exact factor `1/1609.344`:
a 300 km route is reported as 186.3 miles while the true conversion is
about 186.41 miles, a gap beyond the one-decimal tolerance. -/
theorem reported_miles_gap_at_300km :
    ¬ |reportedMiles 300000 - 300000 * (1000/1609344)| ≤ 1/10 := by
  have hpy : pyInt 300000 = 300000 := by
    rw [pyInt, if_pos (by norm_num)]
    exact floor_eq_of _ 300000 (by norm_num) (by norm_num)
  have h : (⌊milesValue 300000 * 10 + 1/2⌋ : ℤ) = 1863 :=
    floor_eq_of _ 1863 (by norm_num [milesValue]) (by norm_num [milesValue])
  rw [reportedMiles, hpy, round1, h, not_le]
  have hneg : ((1863 : ℤ) : ℚ)/10 - 300000 * (1000/1609344) < 0 := by norm_num
  rw [abs_of_neg hneg]
  norm_num

/-- Claim C7 as amended: the reported one-decimal miles figure (src lines
64 and 106: `int()` of the summed lengths, times the truncated constant
0.000621, formatted `.1f`) agrees with the exact meters-to-miles
conversion `L / 1609.344` to within one-decimal rounding tolerance for
route lengths up to 100 km — in particular a 1609.34 m route is reported
as exactly 1.0 mile — but not beyond: for longer routes the truncated
constant drifts past the tolerance, as the counterexample above shows
at 300 km. -/
theorem reported_miles_conversion :
    (∀ L : ℚ, 0 ≤ L → L ≤ 100000 →
        |reportedMiles L - L * (1000/1609344)| ≤ 1/10) ∧
      reportedMiles (160934/100) = 1 := by
  constructor
  · intro L h0 h1
    have hk1 : ((⌊L⌋ : ℤ) : ℚ) ≤ L := Int.floor_le L
    have hk2 : L < ((⌊L⌋ : ℤ) : ℚ) + 1 := Int.lt_floor_add_one L
    have hp : pyInt L = ⌊L⌋ := by simp [pyInt, h0]
    unfold reportedMiles round1 milesValue
    rw [hp]
    have hr := floor_round_abs ((((⌊L⌋ : ℤ) : ℚ) * (621/1000000)) * 10)
    rw [abs_le] at hr ⊢
    constructor
    · linarith [hr.1, hr.2]
    · linarith [hr.1, hr.2]
  · have hpy : pyInt (160934/100) = 1609 := by
      rw [pyInt, if_pos (by norm_num)]
      exact floor_eq_of _ 1609 (by norm_num) (by norm_num)
    have h10 : (⌊milesValue 1609 * 10 + 1/2⌋ : ℤ) = 10 :=
      floor_eq_of _ 10 (by norm_num [milesValue]) (by norm_num [milesValue])
    rw [reportedMiles, hpy, round1, h10]
    norm_num

/-- Claim C7 witness: the conversion bound at 1609.34 m. -/
theorem reported_miles_conversion_witness :
    |reportedMiles (160934/100) - (160934/100) * (1000/1609344)| ≤ 1/10 :=
  reported_miles_conversion.1 (160934/100) (by norm_num) (by norm_num)

/-- Claim C8: when both shortest-path computations succeed, the total
length of the length-optimized route is at most the total length of the
time-optimized route, by minimality of the former under the `length`
weight. -/
theorem length_route_shorter_than_time_route (G : Graph) (o d : Nat)
    (rL rT : List Nat)
    (hL : IsShortestRoute G Edge.length o d rL)
    (hT : IsShortestRoute G Edge.travel_time o d rT) :
    routeCost G Edge.length rL ≤ routeCost G Edge.length rT :=
  hL.2 rT hT.1

/-- Claim C8 witness: on `G8` the routes differ (6 m detour vs 10 m
direct) and the inequality holds. -/
theorem length_route_shorter_than_time_route_witness :
    IsShortestRoute G8 Edge.length 0 1 [0, 2, 1] ∧
      IsShortestRoute G8 Edge.travel_time 0 1 [0, 1] ∧
      routeCost G8 Edge.length [0, 2, 1] ≤ routeCost G8 Edge.length [0, 1] :=
  ⟨shortest_G8_length, shortest_G8_time,
    length_route_shorter_than_time_route G8 0 1 [0, 2, 1] [0, 1]
      shortest_G8_length shortest_G8_time⟩

/-- Claim C9: when both geocodes succeed but any returned component is
exactly 0.0, the `all([...])` truthiness test at src line 89 fails, so
the run prints the same message and aborts before any network
acquisition, exactly as for an unresolved address. -/
theorem zero_coordinate_treated_as_failure (env : Env) (x1 y1 x2 y2 : ℚ)
    (h1 : env.geo1 = .ok (x1, y1)) (h2 : env.geo2 = .ok (x2, y2))
    (hz : x1 = 0 ∨ y1 = 0 ∨ x2 = 0 ∨ y2 = 0) :
    (main env).networkFetched = false ∧ (main env).fileWritten = false ∧
      (main env).exited = true ∧ (main env).exitStatus = 0 ∧
      (main env).printed = ["Unable to geocode one or both addresses. Exiting..."] := by
  unfold main
  rw [h1, h2]
  rcases hz with hz | hz | hz | hz <;> subst hz <;> simp [geocode, truthy, abortResult]

/-- Claim C9 witness: a run whose origin latitude geocodes to exactly 0. -/
theorem zero_coordinate_treated_as_failure_witness :
    (main envZero).networkFetched = false ∧ (main envZero).fileWritten = false ∧
      (main envZero).exited = true ∧ (main envZero).exitStatus = 0 ∧
      (main envZero).printed = ["Unable to geocode one or both addresses. Exiting..."] :=
  zero_coordinate_treated_as_failure envZero 0 5 1 1 rfl rfl (Or.inl rfl)

/-- Claim C10: every successful run's summary line is
`summaryString (pyInt (length sum of the length-route)) (pyInt
(travel-time sum of the time-route))` — the distance figure comes from
the length-optimized route and the time figure from the time-optimized
route — and the two shortest routes can genuinely differ, as on `G8`. -/
theorem summary_mixes_two_routes :
    (∀ (env : Env) (x1 y1 x2 y2 : ℚ) (rL rT : List Nat),
        env.geo1 = .ok (x1, y1) → env.geo2 = .ok (x2, y2) →
        x1 ≠ 0 → y1 ≠ 0 → x2 ≠ 0 → y2 ≠ 0 →
        env.pathResL = .ok rL → env.pathResT = .ok rT →
        routeOk env.graph rL = true → routeOk env.graph rT = true →
        (main env).summaryLine =
          some (summaryString (pyInt (routeCost env.graph Edge.length rL))
                  (pyInt (routeCost env.graph Edge.travel_time rT)))) ∧
      ∃ rL rT : List Nat, IsShortestRoute G8 Edge.length 0 1 rL ∧
        IsShortestRoute G8 Edge.travel_time 0 1 rT ∧ rL ≠ rT := by
  constructor
  · intro env x1 y1 x2 y2 rL rT h1 h2 hx1 hy1 hx2 hy2 hL hT hvL hvT
    rw [main_success env x1 y1 x2 y2 rL rT h1 h2 hx1 hy1 hx2 hy2 hL hT hvL hvT]
  · exact ⟨[0, 2, 1], [0, 1], shortest_G8_length, shortest_G8_time, by decide⟩

/-- Claim C10 witness: the summary of the `G8` run reports the detour's
length together with the direct edge's travel time. -/
theorem summary_mixes_two_routes_witness :
    (main envC10).summaryLine =
      some (summaryString (pyInt (routeCost envC10.graph Edge.length [0, 2, 1]))
              (pyInt (routeCost envC10.graph Edge.travel_time [0, 1]))) :=
  summary_mixes_two_routes.1 envC10 1 1 2 2 [0, 2, 1] [0, 1] rfl rfl
    (by decide) (by decide) (by decide) (by decide) rfl rfl (by decide) (by decide)

end NetworkAnalysis
